import Mathlib

set_option autoImplicit false

/-!
Verification of the export pipeline of the `sv_tools_template` repository
(`src/js/core/ExportManager.js`, `src/js/core/CanvasManager.js`).

The JavaScript code is shallowly embedded:
* a canvas raster is a function from integer pixel coordinates to RGBA pixels
  with rational channels (alpha normalised to `[0, 1]`);
* Canvas2D `clearRect` / `fillRect` / `drawImage` become pure raster
  transformers using source-over compositing;
* the `ExportManager` / `CanvasManager` mutable fields become an explicit
  state record threaded through each export procedure;
* asynchronous callback chains (`MediaRecorder.onstop` / `onerror`,
  `zip.generateAsync`) are compressed to their sequential effect, with an
  environment record supplying the host-dependent outcomes
  (`MediaRecorder.isTypeSupported`, delivered data chunks, injected faults);
* fallible steps are modelled by an injected fault parameter describing
  which step throws, mirroring the `try`/`catch`/`finally` structure.
-/

/-- An RGBA pixel; channels are rationals, alpha is normalised to `[0,1]`.
This models one pixel of a Canvas2D backing store. -/
structure Pixel where
  r : ℚ
  g : ℚ
  b : ℚ
  a : ℚ
deriving DecidableEq, Repr

/-- The fully transparent pixel: the state of a freshly created canvas and the
result of `clearRect`. -/
def Pixel.clear : Pixel := ⟨0, 0, 0, 0⟩

/-- Source-over compositing of `src` onto `dst`, the Canvas2D default
composite operation used by `fillRect` and `drawImage`. -/
def Pixel.over (src dst : Pixel) : Pixel :=
  ⟨src.r * src.a + dst.r * (1 - src.a),
   src.g * src.a + dst.g * (1 - src.a),
   src.b * src.a + dst.b * (1 - src.a),
   src.a + dst.a * (1 - src.a)⟩

/-- A canvas raster: pixel value at each integer coordinate. -/
abbrev Raster := ℕ × ℕ → Pixel

/-- A freshly created canvas (`document.createElement('canvas')`): every
pixel fully transparent. -/
def blankCanvas : Raster := fun _ => Pixel.clear

/-- Embedding of `ctx.clearRect(0, 0, w, h)`. -/
def clearRect (c : Raster) (w h : ℕ) : Raster :=
  fun p => if p.1 < w ∧ p.2 < h then Pixel.clear else c p

/-- Embedding of `ctx.fillStyle = color; ctx.fillRect(0, 0, w, h)`. -/
def fillRect (c : Raster) (w h : ℕ) (color : Pixel) : Raster :=
  fun p => if p.1 < w ∧ p.2 < h then Pixel.over color (c p) else c p

/-- Embedding of `ctx.drawImage(img, 0, 0, w, h)`; the image is modelled as a
raster already sampled at canvas resolution. -/
def drawImage (c : Raster) (img : Raster) (w h : ℕ) : Raster :=
  fun p => if p.1 < w ∧ p.2 < h then Pixel.over (img p) (c p) else c p

/-- An animation plugin (`BaseAnimation` contract, see
`src/js/animations/SampleAnimation.js`): `renderFrame(ctx, width, height,
time)` draws one frame at an explicitly supplied time; `render(ctx, width,
height)` is the live-loop variant that reads wall-clock time itself, modelled
here as a function of the ambient wall-clock value (its last argument). -/
structure Animation where
  renderFrame : Raster → ℕ → ℕ → ℚ → Raster
  render : Raster → ℕ → ℕ → ℚ → Raster

/-- The `CanvasManager` configuration and live state read by the export
pipeline (`src/js/core/CanvasManager.js`, constructor fields).
`backgroundColor` holds the parsed CSS color; `canvasRaster` is the live
on-screen canvas backing store. -/
structure CanvasManager where
  width : ℕ
  height : ℕ
  backgroundColor : Pixel
  isTransparent : Bool
  backgroundImage : Option Raster
  foregroundImage : Option Raster
  currentAnimation : Option Animation
  canvasRaster : Raster

/-- Embedding of `ExportManager.renderToCanvas(ctx, frame, totalFrames,
duration)`: computes `progress = frame / totalFrames`, `time = progress *
duration`, and invokes the current animation's `renderFrame` at that
synthetic time (no-op when no animation is loaded). -/
def renderToCanvas (cm : CanvasManager) (ctx : Raster)
    (frame totalFrames : ℕ) (duration : ℚ) : Raster :=
  let progress : ℚ := (frame : ℚ) / (totalFrames : ℚ)
  let time : ℚ := progress * duration
  match cm.currentAnimation with
  | some anim => anim.renderFrame ctx cm.width cm.height time
  | none => ctx

/-- Embedding of one iteration of the frame loop of
`ExportManager.exportPNGSequence`: clear the export canvas, composite the
background unless transparent mode is active, render the animation at the
frame's synthetic time, then composite the foreground overlay if present. -/
def renderExportFrame (cm : CanvasManager) (frame totalFrames : ℕ)
    (duration : ℚ) : Raster :=
  let c0 := clearRect blankCanvas cm.width cm.height
  let c1 :=
    if cm.isTransparent then c0
    else
      match cm.backgroundImage with
      | some img => drawImage c0 img cm.width cm.height
      | none => fillRect c0 cm.width cm.height cm.backgroundColor
  let c2 := renderToCanvas cm c1 frame totalFrames duration
  match cm.foregroundImage with
  | some img => drawImage c2 img cm.width cm.height
  | none => c2

/-- Embedding of `const totalFrames = Math.ceil(duration * frameRate)` with
`frameRate = 60` in `exportPNGSequence`. -/
def totalFramesFor (duration : ℚ) : ℕ := (⌈duration * 60⌉).toNat

/-- The list of frames captured by the frame loop of `exportPNGSequence`
(`frames.push(dataURL)` for `frame = 0 .. totalFrames - 1`), each frame being
the fully composited export-canvas raster. -/
def capturedFrames (cm : CanvasManager) (duration : ℚ) : List Raster :=
  (List.range (totalFramesFor duration)).map fun frame =>
    renderExportFrame cm frame (totalFramesFor duration) duration

/-- C1: for every `durationSeconds ≥ 1`, the frame-sequence frame loop
captures exactly `⌈durationSeconds * 60⌉` frames, and for every frame index
`i` the synthetic time handed to the animation's `renderFrame` is
`(i / count) * durationSeconds`. -/
theorem exportPNGSequence_frame_count_and_synthetic_time
    (cm : CanvasManager) (d : ℚ) (hd : 1 ≤ d) :
    ((capturedFrames cm d).length : ℤ) = ⌈d * 60⌉ ∧
    ∀ i, i < totalFramesFor d → ∀ anim ctx,
      cm.currentAnimation = some anim →
        renderToCanvas cm ctx i (totalFramesFor d) d
          = anim.renderFrame ctx cm.width cm.height
              (((i : ℚ) / (totalFramesFor d : ℚ)) * d) := by
  constructor
  · have h60 : (0 : ℚ) ≤ d * 60 := by nlinarith
    have hceil : (0 : ℤ) ≤ ⌈d * 60⌉ := Int.ceil_nonneg h60
    simp [capturedFrames, totalFramesFor, Int.toNat_of_nonneg hceil]
  · intro i _ anim ctx hanim
    simp [renderToCanvas, hanim]

/-- A sample animation used to instantiate universally quantified theorems:
`renderFrame` paints nothing, the live `render` variant likewise. -/
def sampleAnimation : Animation :=
  ⟨fun ctx _ _ _ => ctx, fun ctx _ _ _ => ctx⟩

/-- A sample `CanvasManager` state: 800 × 600 canvas, white opaque
background, no images, the sample animation loaded, blank live raster. -/
def sampleCM : CanvasManager :=
  ⟨800, 600, ⟨1, 1, 1, 1⟩, false, none, none, some sampleAnimation, blankCanvas⟩

/-- Witness for C1 at `durationSeconds = 2` on the sample state. -/
theorem exportPNGSequence_frame_count_and_synthetic_time_witness :
    ((capturedFrames sampleCM 2).length : ℤ) = ⌈(2 : ℚ) * 60⌉ ∧
    ∀ i, i < totalFramesFor 2 → ∀ anim ctx,
      sampleCM.currentAnimation = some anim →
        renderToCanvas sampleCM ctx i (totalFramesFor 2) 2
          = anim.renderFrame ctx sampleCM.width sampleCM.height
              (((i : ℚ) / (totalFramesFor 2 : ℚ)) * 2) :=
  exportPNGSequence_frame_count_and_synthetic_time sampleCM 2 (by norm_num)

/-- Decimal string of a natural number, embedding the JavaScript `String(n)`
conversion used for frame indices and timestamps: big-endian decimal digit
characters. -/
def natStr (n : ℕ) : String :=
  if n = 0 then "0"
  else String.mk (((Nat.digits 10 n).reverse).map Nat.digitChar)

/-- Embedding of JavaScript `String.prototype.padStart(len, c)`: left-pads to
length `len` with `c`, returning the string unchanged when already at least
that long. -/
def padStart (s : String) (len : ℕ) (c : Char) : String :=
  if len ≤ s.data.length then s
  else String.mk (List.replicate (len - s.data.length) c ++ s.data)

/-- Embedding of the frame filename construction of `exportPNGSequence`:
`const frameNumber = String(index + 1).padStart(4, '0');
 const fileName = `frame_` + frameNumber + `.png`;`. -/
def frameFileName (index : ℕ) : String :=
  "frame_" ++ padStart (natStr (index + 1)) 4 '0' ++ ".png"

/-- Numeric value of a big-endian decimal digit list. -/
def decValue (ds : List ℕ) : ℕ := ds.foldl (fun acc d => 10 * acc + d) 0

/-- Digit value of a character (`'0'` ↦ 0, …, `'9'` ↦ 9). -/
def charVal (c : Char) : ℕ := c.toNat - 48

/-- The frame index recorded in a frame filename `frame_<digits>.png`: strip
the 6-character prefix and 4-character suffix and read the remaining digit
characters as a big-endian decimal numeral. -/
def decodeIndex (s : String) : ℕ :=
  decValue (((s.data.drop 6).take (s.data.length - 10)).map charVal)

theorem decValue_append_singleton (xs : List ℕ) (y : ℕ) :
    decValue (xs ++ [y]) = 10 * decValue xs + y := by
  simp [decValue, List.foldl_append]

theorem decValue_reverse_eq_ofDigits (L : List ℕ) :
    decValue L.reverse = Nat.ofDigits 10 L := by
  induction L with
  | nil => rfl
  | cons d t ih =>
      rw [List.reverse_cons, decValue_append_singleton, ih, Nat.ofDigits_cons]
      ring

theorem decValue_replicate_zero_append (k : ℕ) (ds : List ℕ) :
    decValue (List.replicate k 0 ++ ds) = decValue ds := by
  induction k with
  | zero => rfl
  | succ k ih =>
      have : List.replicate (k + 1) 0 ++ ds = 0 :: (List.replicate k 0 ++ ds) := by
        simp [List.replicate_succ]
      rw [this]
      simpa [decValue] using ih

theorem charVal_digitChar {d : ℕ} (hd : d < 10) :
    charVal (Nat.digitChar d) = d := by
  interval_cases d <;> rfl

theorem charVal_zero_char : charVal '0' = 0 := rfl

/-- The digit characters of `natStr n` decode back to the digits of `n`. -/
theorem map_charVal_natStr (n : ℕ) (hn : n ≠ 0) :
    (natStr n).data.map charVal = (Nat.digits 10 n).reverse := by
  simp only [natStr, hn, if_false]
  rw [List.map_map]
  have : ∀ d ∈ (Nat.digits 10 n).reverse, (charVal ∘ Nat.digitChar) d = d := by
    intro d hd
    exact charVal_digitChar (Nat.digits_lt_base (by norm_num) (List.mem_reverse.mp hd))
  exact List.map_congr_left this |>.trans (List.map_id _)

/-- Length of the decimal numeral of `n`: at most 4 digits when `n ≤ 9999`. -/
theorem natStr_length_le_four {n : ℕ} (h1 : 1 ≤ n) (h : n ≤ 9999) :
    (natStr n).data.length ≤ 4 := by
  have hn : n ≠ 0 := by omega
  have hlen : (Nat.digits 10 n).length = Nat.log 10 n + 1 :=
    Nat.digits_len 10 n (by norm_num) hn
  have hlog : Nat.log 10 n < 4 :=
    Nat.log_lt_of_lt_pow hn (by norm_num; omega)
  simp only [natStr, hn, if_false]
  rw [show (((Nat.digits 10 n).reverse).map Nat.digitChar).length
        = (Nat.digits 10 n).length by rw [List.length_map, List.length_reverse]]
  omega

/-- The padded frame number of `frameFileName` has exactly 4 characters when
the index (1-based) stays within 9999. -/
theorem padStart_natStr_length {n : ℕ} (h1 : 1 ≤ n) (h : n ≤ 9999) :
    (padStart (natStr n) 4 '0').data.length = 4 := by
  have hle := natStr_length_le_four h1 h
  unfold padStart
  by_cases hc : 4 ≤ (natStr n).data.length
  · simp only [hc, if_true]
    omega
  · simp only [hc, if_false]
    rw [List.length_append, List.length_replicate]
    omega

/-- Decoding a frame filename recovers the 1-based frame index. -/
theorem decodeIndex_frameFileName (i : ℕ) :
    decodeIndex (frameFileName i) = i + 1 := by
  have hpos : i + 1 ≠ 0 := by omega
  have hdata : (frameFileName i).data
      = "frame_".data ++ (padStart (natStr (i + 1)) 4 '0').data ++ ".png".data := by
    simp [frameFileName, String.data_append]
  unfold decodeIndex
  rw [hdata]
  have h6 : "frame_".data.length = 6 := rfl
  have h4 : ".png".data.length = 4 := rfl
  set pad := (padStart (natStr (i + 1)) 4 '0').data with hpad
  have hdrop : ("frame_".data ++ pad ++ ".png".data).drop 6 = pad ++ ".png".data := by
    rw [List.append_assoc, ← h6, List.drop_left]
  have hlen : ("frame_".data ++ pad ++ ".png".data).length - 10 = pad.length := by
    simp only [List.length_append, h6, h4]
    omega
  rw [hdrop, hlen, List.take_left]
  -- `pad` is the (possibly zero-padded) decimal numeral of `i + 1`
  unfold padStart at hpad
  by_cases hc : 4 ≤ (natStr (i + 1)).data.length
  · rw [hpad]
    simp only [hc, if_true]
    rw [map_charVal_natStr _ hpos, decValue_reverse_eq_ofDigits,
       Nat.ofDigits_digits]
  · rw [hpad]
    simp only [hc, if_false]
    rw [List.map_append]
    have : List.map charVal (List.replicate (4 - (natStr (i + 1)).data.length) '0')
        = List.replicate (4 - (natStr (i + 1)).data.length) 0 := by
      simp [List.map_replicate, charVal_zero_char]
    rw [this, decValue_replicate_zero_append, map_charVal_natStr _ hpos,
       decValue_reverse_eq_ofDigits, Nat.ofDigits_digits]

/-- A video container/codec candidate of `exportMP4`'s preference list:
a MIME type string and the filename extension used on selection. -/
structure VideoFormat where
  mimeType : String
  extension : String
deriving DecidableEq, Repr

/-- Embedding of the ordered `formats` preference list of
`ExportManager.exportMP4` (MP4 codec variants first, then WebM fallbacks). -/
def mp4Formats : List VideoFormat :=
  [⟨"video/mp4; codecs=\"avc1.42E01E\"", "mp4"⟩,
   ⟨"video/mp4; codecs=\"avc1.4D4028\"", "mp4"⟩,
   ⟨"video/mp4; codecs=\"avc1.640028\"", "mp4"⟩,
   ⟨"video/mp4", "mp4"⟩,
   ⟨"video/webm; codecs=\"vp9,opus\"", "webm"⟩,
   ⟨"video/webm; codecs=\"vp8,opus\"", "webm"⟩,
   ⟨"video/webm", "webm"⟩]

/-- Embedding of the `selectedFormat` search loop of `exportMP4`: the first
format of the preference list whose MIME type `MediaRecorder.isTypeSupported`
accepts, `none` when the host supports no candidate. -/
def selectFormat (isTypeSupported : String → Bool) : Option VideoFormat :=
  mp4Formats.find? fun f => isTypeSupported f.mimeType

/-- The mutable state of the `ExportManager` together with the export
trigger button's UI state (`export-btn` text and disabled flag), threaded
explicitly through each export procedure. -/
structure AppState where
  cm : CanvasManager
  isExporting : Bool
  exportBtnText : String
  exportBtnDisabled : Bool

/-- Host-environment inputs of one `exportMP4` run: which MIME types
`MediaRecorder.isTypeSupported` accepts, the data chunks the recorder
delivers via `ondataavailable`, whether the recorder reports a runtime error
(`onerror`), and whether `canvas.captureStream` itself throws. -/
structure VideoEnv where
  isTypeSupported : String → Bool
  chunks : List (List ℕ)
  recorderError : Bool
  captureFails : Bool

/-- Fault injected into an `exportPNGSequence` run: the frame at which
raster capture/encoding throws, or a failure of ZIP archive assembly. -/
inductive SeqFault
  | frameEncode (i : ℕ)
  | zipAssembly
deriving DecidableEq, Repr

/-- Environment of one dispatched export: the video-host inputs, an optional
frame-sequence fault, and the `Date.now()` timestamp. -/
structure ExportEnv where
  video : VideoEnv
  seqFault : Option SeqFault
  now : ℕ

/-- Observable side events of a video export run, used to order stream
capture against failure. -/
inductive VideoEvent
  | streamCaptured (fps : ℕ)
  | recorderCreated (mime : String)
  | recordingStarted
  | recorderStopped
  | tracksStopped
deriving DecidableEq, Repr

/-- Values spliced into the generated `README.txt` manifest of a
frame-sequence archive (frame count, duration, frame rate, alpha mode,
canvas dimensions). -/
structure ReadmeInfo where
  frames : ℕ
  duration : ℕ
  frameRate : ℕ
  alphaPreserved : Bool
  width : ℕ
  height : ℕ
deriving DecidableEq, Repr

/-- Entry contents: a captured PNG frame raster or the README manifest. -/
inductive EntryData
  | png (r : Raster)
  | readme (info : ReadmeInfo)

/-- One named entry of the generated ZIP archive. -/
structure ZipEntry where
  name : String
  payload : EntryData

/-- Payload of a produced download artifact. -/
inductive ArtifactData
  | pngImage (r : Raster)
  | zipArchive (entries : List ZipEntry)
  | videoBlob (bytes : List ℕ)

/-- A downloadable artifact: suggested filename, MIME type, and payload. -/
structure Artifact where
  filename : String
  mime : String
  payload : ArtifactData

/-- Result of one export procedure: the final state, the ordered video
events, the produced artifacts, and the surfaced `alert` message if any. -/
structure ExportResult where
  state : AppState
  events : List VideoEvent
  artifacts : List Artifact
  alert : Option String

/-- Embedding of `ExportManager.exportPNG`: reads the current live canvas
raster (`canvas.toDataURL('image/png')`) and triggers a download named
`canvas-export-<Date.now()>.png`; no guard, no state change. -/
def exportPNGRun (st : AppState) (now : ℕ) : ExportResult :=
  ⟨st, [],
   [⟨"canvas-export-" ++ natStr now ++ ".png", "image/png",
     .pngImage st.cm.canvasRaster⟩],
   none⟩

/-- The user-facing message of `exportMP4`'s top-level `catch` block. -/
def videoFailAlert (msg : String) : String :=
  "Video export failed: " ++ msg ++ "\n\nTry using PNG Sequence export instead."

/-- The user-facing message of `exportMP4`'s `mediaRecorder.onerror` handler. -/
def recorderErrorAlert : String := "Recording error occurred. Please try again."

/-- The success message shown by `exportMP4`'s `onstop` handler, which warns
when the WebM fallback container was used instead of MP4. -/
def videoDoneAlert (fmt : VideoFormat) (filename : String) : String :=
  if fmt.extension = "webm" then
    "Video saved as WebM format. Your browser doesn't support MP4 recording.\nFile: "
      ++ filename
  else
    "Video saved successfully!\nFile: " ++ filename

/-- Embedding of `ExportManager.exportMP4(duration)`. The asynchronous
recorder callbacks are compressed to their sequential effect: re-entrancy
guard; set `isExporting`; relabel/disable the trigger; capture the canvas
stream at 30 fps (which may itself throw); select the first supported format
of the preference list, throwing `No supported video format found` when none
is; create and start the recorder; then either the `onerror` path (runtime
recorder error) or, after `duration` seconds, `stop()` and the `onstop` path
assembling the blob from the buffered chunks (`ondataavailable` only buffers
chunks of positive size). Every exit path restores the trigger and clears
`isExporting`. -/
def exportMP4Run (st : AppState) (duration : ℕ) (env : VideoEnv) (now : ℕ) :
    ExportResult :=
  if st.isExporting then ⟨st, [], [], none⟩
  else
    -- `finally`-style restoration shared by every exit path: button text
    -- back to `originalText`, button re-enabled, `isExporting = false`.
    let endState : AppState :=
      { st with isExporting := false, exportBtnDisabled := false }
    if env.captureFails then
      ⟨endState, [], [], some (videoFailAlert "stream capture failed")⟩
    else
      let ev0 : List VideoEvent := [.streamCaptured 30]
      match selectFormat env.isTypeSupported with
      | none =>
          ⟨endState, ev0, [], some (videoFailAlert "No supported video format found")⟩
      | some fmt =>
          let ev1 := ev0 ++ [.recorderCreated fmt.mimeType, .recordingStarted]
          if env.recorderError then
            ⟨endState, ev1, [], some recorderErrorAlert⟩
          else
            let recordedChunks := env.chunks.filter fun c => decide (0 < c.length)
            let filename := "canvas-animation-" ++ natStr now ++ "." ++ fmt.extension
            ⟨endState, ev1 ++ [.recorderStopped, .tracksStopped],
             [⟨filename, fmt.mimeType, .videoBlob recordedChunks.flatten⟩],
             some (videoDoneAlert fmt filename)⟩

/-- Embedding of the archive construction of `exportPNGSequence`:
`frames.forEach((frameData, index) => folder.file(fileName, ...))` over the
captured frames, followed by `folder.file('README.txt', readmeContent)`. -/
def zipEntries (cm : CanvasManager) (duration : ℕ) : List ZipEntry :=
  let N := totalFramesFor (duration : ℚ)
  ((List.range N).map fun index =>
      ⟨frameFileName index,
       .png (renderExportFrame cm index N (duration : ℚ))⟩)
    ++ [⟨"README.txt", .readme ⟨N, duration, 60, cm.isTransparent, cm.width, cm.height⟩⟩]

/-- Whether an injected frame-sequence fault is actually reached by a run
with `totalFrames = N`: a frame-encode fault fires only at an index the loop
visits; an archive-assembly fault always fires. -/
def seqFaultFires (fault : Option SeqFault) (N : ℕ) : Bool :=
  match fault with
  | none => false
  | some (.frameEncode i) => decide (i < N)
  | some .zipAssembly => true

/-- The user-facing message of `exportPNGSequence`'s `catch` block. -/
def seqFailAlert : String := "PNG sequence export failed. Please try again."

/-- The folder/zip base name of `exportPNGSequence`, embedding the `alpha`
marker when transparency is active plus the creation timestamp. -/
def seqFolderName (cm : CanvasManager) (now : ℕ) : String :=
  (if cm.isTransparent then "canvas-sequence-alpha-" else "canvas-sequence-") ++ natStr now

/-- Embedding of `ExportManager.exportPNGSequence(duration)`: re-entrancy
guard; set `isExporting`; disable the trigger; capture `totalFrames =
ceil(duration * 60)` frames on a freshly created off-screen canvas; pack
them into a ZIP archive together with the README manifest and download it.
A fault at any reached step takes the `catch` path: the local `frames` array
is discarded, no artifact is produced, and only the failure alert is shown.
The `finally` block restores the trigger and clears `isExporting` on every
exit path. -/
def exportPNGSequenceRun (st : AppState) (duration : ℕ)
    (fault : Option SeqFault) (now : ℕ) : ExportResult :=
  if st.isExporting then ⟨st, [], [], none⟩
  else
    let N := totalFramesFor (duration : ℚ)
    let endState : AppState :=
      { st with isExporting := false, exportBtnDisabled := false }
    if seqFaultFires fault N then
      ⟨endState, [], [], some seqFailAlert⟩
    else
      let folderName := seqFolderName st.cm now
      ⟨endState, [],
       [⟨folderName ++ ".zip", "application/zip",
         .zipArchive (zipEntries st.cm duration)⟩],
       some ("PNG sequence exported successfully!\n" ++ natStr N ++ " frames"
         ++ (if st.cm.isTransparent then " with alpha transparency" else "")
         ++ "\nFile: " ++ folderName ++ ".zip")⟩

/-- Embedding of `ExportManager.handleExport`: reads the chosen format and
duration (`parseInt(...) || 5`, so a missing, unparsable or zero value falls
back to 5) and dispatches to `exportPNG`, `exportMP4` or
`exportPNGSequence`; any other format string does nothing. -/
def handleExport (format : String) (durationValue : Option ℕ) (st : AppState)
    (env : ExportEnv) : ExportResult :=
  let duration : ℕ :=
    match durationValue with
    | none => 5
    | some 0 => 5
    | some d => d
  if format = "png" then exportPNGRun st env.now
  else if format = "mp4" then exportMP4Run st duration env.video env.now
  else if format = "png-sequence" then
    exportPNGSequenceRun st duration env.seqFault env.now
  else ⟨st, [], [], none⟩

/-- An idle application state used to instantiate theorems on concrete
inputs. -/
def idleState : AppState := ⟨sampleCM, false, "Export", false⟩

/-- An application state with an export already in flight. -/
def busyState : AppState := ⟨sampleCM, true, "Recording... 3s", true⟩

/-- A host on which `MediaRecorder.isTypeSupported` rejects every format. -/
def noSupportEnv : VideoEnv := ⟨fun _ => false, [], false, false⟩

/-- A host supporting only the universal fallback container `video/webm`,
delivering three data chunks one of which is empty. -/
def webmOnlyEnv : VideoEnv := ⟨fun s => s == "video/webm", [[1, 2], [], [3]], false, false⟩

/-- A sample dispatch environment: webm-only host, no injected sequence
fault, timestamp 7. -/
def sampleExportEnv : ExportEnv := ⟨webmOnlyEnv, none, 7⟩

/-- C2 counterexample: on a host with no supported encoding, `exportMP4`
does fail and produces no artifact, but only after the canvas media stream
has already been captured — the `captureStream(30)` call precedes the format
check, contradicting the claim that the failure occurs before any stream
capture. -/
theorem exportMP4_unsupported_still_captures_stream :
    VideoEvent.streamCaptured 30 ∈ (exportMP4Run idleState 5 noSupportEnv 0).events
    ∧ (exportMP4Run idleState 5 noSupportEnv 0).artifacts = []
    ∧ (exportMP4Run idleState 5 noSupportEnv 0).alert
        = some (videoFailAlert "No supported video format found") := by
  refine ⟨?_, rfl, rfl⟩
  show VideoEvent.streamCaptured 30 ∈ [VideoEvent.streamCaptured 30]
  exact List.mem_singleton.mpr rfl

/-- C2 (amended): when no encoding of the preference list is supported,
`exportMP4` fails with the unsupported-format error, creates no recorder,
never starts recording (the only observable event is the stream capture that
precedes the check), produces no artifact, and restores `isExporting`. -/
theorem exportMP4_no_supported_format_fails_cleanly
    (st : AppState) (d now : ℕ) (env : VideoEnv)
    (h0 : st.isExporting = false)
    (hcap : env.captureFails = false)
    (hsel : selectFormat env.isTypeSupported = none) :
    (exportMP4Run st d env now).artifacts = []
    ∧ (exportMP4Run st d env now).alert
        = some (videoFailAlert "No supported video format found")
    ∧ (exportMP4Run st d env now).events = [VideoEvent.streamCaptured 30]
    ∧ (exportMP4Run st d env now).state.isExporting = false := by
  simp [exportMP4Run, h0, hcap, hsel]

/-- Witness for the amended C2 on the no-support host. -/
theorem exportMP4_no_supported_format_fails_cleanly_witness :
    (exportMP4Run idleState 5 noSupportEnv 0).artifacts = []
    ∧ (exportMP4Run idleState 5 noSupportEnv 0).alert
        = some (videoFailAlert "No supported video format found")
    ∧ (exportMP4Run idleState 5 noSupportEnv 0).events = [VideoEvent.streamCaptured 30]
    ∧ (exportMP4Run idleState 5 noSupportEnv 0).state.isExporting = false :=
  exportMP4_no_supported_format_fails_cleanly idleState 5 0 noSupportEnv rfl rfl rfl

/-- C8: a completed video export's single artifact is the concatenation of
the buffered recorded chunks tagged with the selected encoding's MIME type,
and its filename carries the selected format's container extension. -/
theorem exportMP4_completion_artifact
    (st : AppState) (d now : ℕ) (env : VideoEnv) (fmt : VideoFormat)
    (h0 : st.isExporting = false) (hcap : env.captureFails = false)
    (herr : env.recorderError = false)
    (hsel : selectFormat env.isTypeSupported = some fmt) :
    (exportMP4Run st d env now).artifacts
      = [⟨"canvas-animation-" ++ natStr now ++ "." ++ fmt.extension,
          fmt.mimeType,
          .videoBlob ((env.chunks.filter fun c => decide (0 < c.length)).flatten)⟩] := by
  simp [exportMP4Run, h0, hcap, herr, hsel]

/-- Witness for C8 on the webm-only host: the fallback container actually
selected determines MIME type and extension, and the two non-empty chunks
are concatenated. -/
theorem exportMP4_completion_artifact_witness :
    (exportMP4Run idleState 5 webmOnlyEnv 7).artifacts
      = [⟨"canvas-animation-" ++ natStr 7 ++ "." ++ (⟨"video/webm", "webm"⟩ : VideoFormat).extension,
          (⟨"video/webm", "webm"⟩ : VideoFormat).mimeType,
          .videoBlob ((webmOnlyEnv.chunks.filter fun c => decide (0 < c.length)).flatten)⟩] :=
  exportMP4_completion_artifact idleState 5 7 webmOnlyEnv ⟨"video/webm", "webm"⟩ rfl rfl rfl rfl

/-- C3 counterexample: while an export is in flight, a still-image request
dispatched through `handleExport` is not a no-op — `exportPNG` has no
`isExporting` guard and produces a (second) PNG artifact. -/
theorem handleExport_png_during_export_produces_artifact :
    busyState.isExporting = true
    ∧ (handleExport "png" (some 5) busyState sampleExportEnv).artifacts.length = 1 :=
  ⟨rfl, rfl⟩

set_option maxRecDepth 4096 in
/-- C3 (amended): while `isExporting = true`, video and frame-sequence
requests are complete no-ops (state, events, artifacts and alert all
untouched); a still-image request mutates no session state but does produce
one PNG artifact. -/
theorem handleExport_reentrancy_guard
    (st : AppState) (dv : Option ℕ) (env : ExportEnv)
    (h : st.isExporting = true) :
    handleExport "mp4" dv st env = ⟨st, [], [], none⟩
    ∧ handleExport "png-sequence" dv st env = ⟨st, [], [], none⟩
    ∧ (handleExport "png" dv st env).state = st
    ∧ (handleExport "png" dv st env).artifacts.length = 1 := by
  refine ⟨?_, ?_, ?_, ?_⟩ <;>
    (unfold handleExport; norm_num) <;>
    simp [exportMP4Run, exportPNGSequenceRun, exportPNGRun, h]

/-- Witness for the amended C3 on the busy state. -/
theorem handleExport_reentrancy_guard_witness :
    handleExport "mp4" (some 5) busyState sampleExportEnv = ⟨busyState, [], [], none⟩
    ∧ handleExport "png-sequence" (some 5) busyState sampleExportEnv
        = ⟨busyState, [], [], none⟩
    ∧ (handleExport "png" (some 5) busyState sampleExportEnv).state = busyState
    ∧ (handleExport "png" (some 5) busyState sampleExportEnv).artifacts.length = 1 :=
  handleExport_reentrancy_guard busyState (some 5) sampleExportEnv rfl

theorem exportMP4Run_final_state
    (st : AppState) (d : ℕ) (env : VideoEnv) (now : ℕ)
    (h0 : st.isExporting = false) :
    (exportMP4Run st d env now).state
      = { st with isExporting := false, exportBtnDisabled := false } := by
  unfold exportMP4Run
  simp only [h0, Bool.false_eq_true, if_false]
  split
  · rfl
  · split
    · rfl
    · split <;> rfl

theorem exportPNGSequenceRun_final_state
    (st : AppState) (d : ℕ) (fault : Option SeqFault) (now : ℕ)
    (h0 : st.isExporting = false) :
    (exportPNGSequenceRun st d fault now).state
      = { st with isExporting := false, exportBtnDisabled := false } := by
  unfold exportPNGSequenceRun
  simp only [h0, Bool.false_eq_true, if_false]
  split <;> rfl

theorem exportPNGSequenceRun_success_artifacts
    (st : AppState) (d : ℕ) (now : ℕ)
    (h0 : st.isExporting = false) :
    (exportPNGSequenceRun st d none now).artifacts.length = 1 := by
  simp [exportPNGSequenceRun, h0, seqFaultFires]

/-- C4: both guarded export procedures clear `isExporting` on every exit
path (success, thrown failure, unsupported format, recorder runtime error,
any injected sequence fault), and after any such run — failed or not — a
subsequent export request of either format succeeds normally and produces
exactly one artifact. -/
theorem export_isExporting_always_restored
    (st : AppState) (d d2 now now2 : ℕ) (env : VideoEnv) (fault : Option SeqFault)
    (h0 : st.isExporting = false) :
    (exportMP4Run st d env now).state.isExporting = false
    ∧ (exportPNGSequenceRun st d fault now).state.isExporting = false
    ∧ (exportPNGSequenceRun (exportMP4Run st d env now).state d2 none now2).artifacts.length = 1
    ∧ ∀ env2 : VideoEnv, env2.captureFails = false → env2.recorderError = false →
        ∀ fmt, selectFormat env2.isTypeSupported = some fmt →
          (exportMP4Run (exportPNGSequenceRun st d fault now).state d2 env2 now2).artifacts.length
            = 1 := by
  have hm := exportMP4Run_final_state st d env now h0
  have hs := exportPNGSequenceRun_final_state st d fault now h0
  refine ⟨by rw [hm], by rw [hs], ?_, ?_⟩
  · rw [hm]
    exact exportPNGSequenceRun_success_artifacts _ d2 now2 rfl
  · intro env2 hcap herr fmt hsel
    rw [hs]
    simp [exportMP4Run, hcap, herr, hsel]

/-- Witness for C4: idle start, recorder-error video environment, archive
fault for the sequence, webm-only host for the rerun. -/
theorem export_isExporting_always_restored_witness :
    (exportMP4Run idleState 5 ⟨fun _ => true, [], true, false⟩ 0).state.isExporting = false
    ∧ (exportPNGSequenceRun idleState 5 (some .zipAssembly) 0).state.isExporting = false
    ∧ (exportPNGSequenceRun (exportMP4Run idleState 5 ⟨fun _ => true, [], true, false⟩ 0).state
          2 none 1).artifacts.length = 1
    ∧ ∀ env2 : VideoEnv, env2.captureFails = false → env2.recorderError = false →
        ∀ fmt, selectFormat env2.isTypeSupported = some fmt →
          (exportMP4Run (exportPNGSequenceRun idleState 5 (some .zipAssembly) 0).state
              2 env2 1).artifacts.length = 1 :=
  export_isExporting_always_restored idleState 5 2 0 1
    ⟨fun _ => true, [], true, false⟩ (some .zipAssembly) rfl

/-- C7: a frame-sequence export hit by a fault at any reached step (frame
encode or archive assembly) aborts wholesale: no artifact is produced, the
failure alert is surfaced, and the trigger/session state returns to idle
with the `CanvasManager` untouched (the partially captured frames are local
to the aborted run and are discarded with it). -/
theorem exportPNGSequence_failure_aborts_cleanly
    (st : AppState) (d now : ℕ) (fault : Option SeqFault)
    (h0 : st.isExporting = false)
    (hf : seqFaultFires fault (totalFramesFor (d : ℚ)) = true) :
    (exportPNGSequenceRun st d fault now).artifacts = []
    ∧ (exportPNGSequenceRun st d fault now).alert = some seqFailAlert
    ∧ (exportPNGSequenceRun st d fault now).state.isExporting = false
    ∧ (exportPNGSequenceRun st d fault now).state.exportBtnDisabled = false
    ∧ (exportPNGSequenceRun st d fault now).state.exportBtnText = st.exportBtnText
    ∧ (exportPNGSequenceRun st d fault now).state.cm = st.cm := by
  simp [exportPNGSequenceRun, h0, hf]

/-- Witness for C7 with an archive-assembly fault. -/
theorem exportPNGSequence_failure_aborts_cleanly_witness :
    (exportPNGSequenceRun idleState 2 (some .zipAssembly) 0).artifacts = []
    ∧ (exportPNGSequenceRun idleState 2 (some .zipAssembly) 0).alert = some seqFailAlert
    ∧ (exportPNGSequenceRun idleState 2 (some .zipAssembly) 0).state.isExporting = false
    ∧ (exportPNGSequenceRun idleState 2 (some .zipAssembly) 0).state.exportBtnDisabled = false
    ∧ (exportPNGSequenceRun idleState 2 (some .zipAssembly) 0).state.exportBtnText
        = idleState.exportBtnText
    ∧ (exportPNGSequenceRun idleState 2 (some .zipAssembly) 0).state.cm = idleState.cm :=
  exportPNGSequence_failure_aborts_cleanly idleState 2 0 (some .zipAssembly) rfl rfl

/-- C10: no export path mutates the `CanvasManager`: whatever format is
dispatched and whatever the environment does, the final state's
`CanvasManager` — its dimensions, background configuration, images, loaded
animation and live canvas raster — is exactly the initial one (frame
sequences composite onto a freshly created off-screen canvas instead). -/
theorem handleExport_preserves_canvasManager
    (format : String) (dv : Option ℕ) (st : AppState) (env : ExportEnv) :
    (handleExport format dv st env).state.cm = st.cm := by
  unfold handleExport
  split_ifs with h1 h2 h3
  · rfl
  · by_cases h0 : st.isExporting
    · simp [exportMP4Run, h0]
    · rw [exportMP4Run_final_state _ _ _ _ (by simpa using h0)]
  · by_cases h0 : st.isExporting
    · simp [exportPNGSequenceRun, h0]
    · rw [exportPNGSequenceRun_final_state _ _ _ _ (by simpa using h0)]
  · rfl

/-- C9: the export pipeline's frame rendering depends only on the animation
plugin's `renderFrame` member: two animations with the same `renderFrame`
but arbitrarily different live-loop `render` variants yield identical
rendered frames and identical captured frame sequences — the pipeline never
invokes `render`. -/
theorem exportPipeline_ignores_live_render_variant
    (a1 a2 : Animation) (h : a1.renderFrame = a2.renderFrame)
    (cm : CanvasManager) (frame N : ℕ) (d : ℚ) (ctx : Raster) :
    renderToCanvas { cm with currentAnimation := some a1 } ctx frame N d
      = renderToCanvas { cm with currentAnimation := some a2 } ctx frame N d
    ∧ renderExportFrame { cm with currentAnimation := some a1 } frame N d
      = renderExportFrame { cm with currentAnimation := some a2 } frame N d
    ∧ capturedFrames { cm with currentAnimation := some a1 } d
      = capturedFrames { cm with currentAnimation := some a2 } d := by
  have hr : ∀ c f n, renderToCanvas { cm with currentAnimation := some a1 } c f n d
      = renderToCanvas { cm with currentAnimation := some a2 } c f n d := by
    intro c f n
    simp [renderToCanvas, h]
  have he : ∀ f n, renderExportFrame { cm with currentAnimation := some a1 } f n d
      = renderExportFrame { cm with currentAnimation := some a2 } f n d := by
    intro f n
    simp only [renderExportFrame, hr]
  refine ⟨hr ctx frame N, he frame N, ?_⟩
  unfold capturedFrames
  exact List.map_congr_left fun i _ => he i _

/-- An animation sharing `sampleAnimation`'s `renderFrame` but with a
different live-loop `render` variant. -/
def sampleAnimationAltRender : Animation :=
  ⟨fun ctx _ _ _ => ctx, fun _ _ _ _ => blankCanvas⟩

/-- Witness for C9: `sampleAnimation` and `sampleAnimationAltRender` agree
on `renderFrame`, so every export rendering step agrees on them. -/
theorem exportPipeline_ignores_live_render_variant_witness :
    renderToCanvas { sampleCM with currentAnimation := some sampleAnimation }
        blankCanvas 3 120 2
      = renderToCanvas { sampleCM with currentAnimation := some sampleAnimationAltRender }
          blankCanvas 3 120 2
    ∧ renderExportFrame { sampleCM with currentAnimation := some sampleAnimation } 3 120 2
      = renderExportFrame { sampleCM with currentAnimation := some sampleAnimationAltRender }
          3 120 2
    ∧ capturedFrames { sampleCM with currentAnimation := some sampleAnimation } 2
      = capturedFrames { sampleCM with currentAnimation := some sampleAnimationAltRender } 2 :=
  exportPipeline_ignores_live_render_variant sampleAnimation sampleAnimationAltRender
    rfl sampleCM 3 120 2 blankCanvas

/-- A transparent-mode state whose foreground overlay is an opaque white
image covering the whole canvas, with no animation loaded. -/
def transparentFgCM : CanvasManager :=
  ⟨800, 600, ⟨1, 1, 1, 1⟩, true, none, some (fun _ => ⟨1, 1, 1, 1⟩), none, blankCanvas⟩

/-- C6 counterexample: in transparent-background mode with no animation
loaded (so every pixel is outside the animation content), a frame-sequence
frame does NOT keep alpha 0 everywhere: the foreground overlay is still
composited, and an opaque overlay drives alpha to 1 at pixel (0, 0). -/
theorem transparent_frame_opaque_foreground_alpha :
    transparentFgCM.isTransparent = true
    ∧ transparentFgCM.currentAnimation = none
    ∧ ((renderExportFrame transparentFgCM 0 120 2) (0, 0)).a = 1 := by
  refine ⟨rfl, rfl, ?_⟩
  show ((1 : ℚ) + 0 * (1 - 1)) = 1
  norm_num

/-- C6 (amended): in transparent-background mode the background compositing
step is never applied — the rendered frame is independent of the configured
background color and background image — and every pixel the animation leaves
untouched keeps alpha 0, provided the foreground overlay is absent or itself
fully transparent at that pixel (an opaque foreground overlay is still
composited and can raise alpha there). -/
theorem transparent_frame_alpha_zero_outside_content
    (cm : CanvasManager) (frame N : ℕ) (d : ℚ) (p : ℕ × ℕ)
    (ht : cm.isTransparent = true)
    (hanim : ∀ anim, cm.currentAnimation = some anim →
        ∀ ctx t, (anim.renderFrame ctx cm.width cm.height t) p = ctx p)
    (hfg : ∀ img, cm.foregroundImage = some img → (img p).a = 0) :
    ((renderExportFrame cm frame N d) p).a = 0
    ∧ ∀ c2 i2, renderExportFrame
        { cm with backgroundColor := c2, backgroundImage := i2 } frame N d
      = renderExportFrame cm frame N d := by
  constructor
  · have hclear : ∀ q, (clearRect blankCanvas cm.width cm.height) q = Pixel.clear := by
      intro q
      unfold clearRect blankCanvas
      split <;> rfl
    have hc2 : (renderToCanvas cm (clearRect blankCanvas cm.width cm.height)
        frame N d) p = Pixel.clear := by
      unfold renderToCanvas
      cases hca : cm.currentAnimation with
      | none => exact hclear p
      | some anim =>
          dsimp only
          rw [hanim anim hca, hclear p]
    simp only [renderExportFrame, ht, if_true]
    cases hfi : cm.foregroundImage with
    | none =>
        dsimp only
        rw [hc2]
        rfl
    | some img =>
        dsimp only
        unfold drawImage
        split
        · rw [hc2]
          simp [Pixel.over, Pixel.clear, hfg img hfi]
        · rw [hc2]
          rfl
  · intro c2 i2
    simp [renderExportFrame, renderToCanvas, ht]

/-- A transparent-mode state with no foreground overlay and no animation. -/
def transparentPlainCM : CanvasManager :=
  ⟨800, 600, ⟨1, 1, 1, 1⟩, true, none, none, none, blankCanvas⟩

/-- Witness for the amended C6 at pixel (0, 0) of `transparentPlainCM`. -/
theorem transparent_frame_alpha_zero_outside_content_witness :
    ((renderExportFrame transparentPlainCM 0 120 2) (0, 0)).a = 0
    ∧ ∀ c2 i2, renderExportFrame
        { transparentPlainCM with backgroundColor := c2, backgroundImage := i2 } 0 120 2
      = renderExportFrame transparentPlainCM 0 120 2 :=
  transparent_frame_alpha_zero_outside_content transparentPlainCM 0 120 2 (0, 0)
    rfl (fun anim h => nomatch h) (fun img h => nomatch h)

theorem totalFramesFor_natCast (d : ℕ) : totalFramesFor (d : ℚ) = 60 * d := by
  unfold totalFramesFor
  rw [show ((d : ℚ) * 60) = ((60 * d : ℕ) : ℚ) by push_cast; ring,
     Int.ceil_natCast]
  exact Int.toNat_natCast _

theorem frameFileName_zero : frameFileName 0 = "frame_0001.png" := by
  have h1 : Nat.digits 10 1 = [1] := Nat.digits_of_lt 10 1 one_ne_zero (by norm_num)
  simp [frameFileName, natStr, padStart, h1]
  rfl

/-- C5: a successful frame-sequence export's archive has exactly
`frameCount + 1` entries: entry `i` (for `i < frameCount`) is the captured
frame `i` under the filename carrying the zero-padded four-digit 1-based
index — so the recorded indices start at `frame_0001.png` and strictly
increase — and the final entry is the single `README.txt` manifest recording
frame count, duration, frame rate, alpha mode and canvas dimensions.
(The duration bounds are the UI's configuration surface, 1–60 seconds,
under which every index fits in four digits.) -/
theorem exportPNGSequence_archive_structure
    (cm : CanvasManager) (d : ℕ) (h1 : 1 ≤ d) (h60 : d ≤ 60) :
    (zipEntries cm d).length = totalFramesFor (d : ℚ) + 1
    ∧ frameFileName 0 = "frame_0001.png"
    ∧ (∀ i, i < totalFramesFor (d : ℚ) →
        (zipEntries cm d)[i]?
          = some ⟨frameFileName i,
              .png (renderExportFrame cm i (totalFramesFor (d : ℚ)) (d : ℚ))⟩
        ∧ decodeIndex (frameFileName i) = i + 1
        ∧ (padStart (natStr (i + 1)) 4 '0').data.length = 4)
    ∧ (∀ i j, i < j → j < totalFramesFor (d : ℚ) →
        decodeIndex (frameFileName i) < decodeIndex (frameFileName j))
    ∧ (zipEntries cm d)[totalFramesFor (d : ℚ)]?
        = some ⟨"README.txt",
            .readme ⟨totalFramesFor (d : ℚ), d, 60, cm.isTransparent,
              cm.width, cm.height⟩⟩ := by
  have hN : totalFramesFor (d : ℚ) = 60 * d := totalFramesFor_natCast d
  refine ⟨?_, frameFileName_zero, ?_, ?_, ?_⟩
  · simp [zipEntries]
  · intro i hi
    refine ⟨?_, decodeIndex_frameFileName i, ?_⟩
    · unfold zipEntries
      rw [List.getElem?_append_left (by simpa using hi), List.getElem?_map,
         List.getElem?_range hi]
      rfl
    · exact padStart_natStr_length (by omega) (by omega)
  · intro i j hij hj
    rw [decodeIndex_frameFileName, decodeIndex_frameFileName]
    omega
  · unfold zipEntries
    rw [List.getElem?_append_right (by simp)]
    simp

/-- Witness for C5 at `duration = 2` seconds. -/
theorem exportPNGSequence_archive_structure_witness :
    (zipEntries sampleCM 2).length = totalFramesFor ((2 : ℕ) : ℚ) + 1
    ∧ frameFileName 0 = "frame_0001.png"
    ∧ (∀ i, i < totalFramesFor ((2 : ℕ) : ℚ) →
        (zipEntries sampleCM 2)[i]?
          = some ⟨frameFileName i,
              .png (renderExportFrame sampleCM i (totalFramesFor ((2 : ℕ) : ℚ)) ((2 : ℕ) : ℚ))⟩
        ∧ decodeIndex (frameFileName i) = i + 1
        ∧ (padStart (natStr (i + 1)) 4 '0').data.length = 4)
    ∧ (∀ i j, i < j → j < totalFramesFor ((2 : ℕ) : ℚ) →
        decodeIndex (frameFileName i) < decodeIndex (frameFileName j))
    ∧ (zipEntries sampleCM 2)[totalFramesFor ((2 : ℕ) : ℚ)]?
        = some ⟨"README.txt",
            .readme ⟨totalFramesFor ((2 : ℕ) : ℚ), 2, 60, sampleCM.isTransparent,
              sampleCM.width, sampleCM.height⟩⟩ :=
  exportPNGSequence_archive_structure sampleCM 2 (by norm_num) (by norm_num)
